import Mathlib

/-!
Verification of the vault process-lifecycle supervisor
(`src/encrypted_fs_desktop_common/src/vault_handler.rs`).

The supervisor is embedded shallowly: each operation becomes a pure Lean
function from the handler state, the persisted store and an environment
(fixing the results of every external call: store reads and writes, process
spawn, process-table status, the `ps` scan, kill and umount utilities) to a
result record holding the outcome, the new handler state, the new store and
the trace of external actions performed, in order.  A Rust `panic!` or
`expect` failure is the `aborted` outcome.
-/

/-- The four coarse error kinds of `VaultHandlerError` (vault_handler.rs:18-28). -/
inductive VaultHandlerError where
  | CannotLockVault
  | CannotUnlockVault
  | CannotChangeMountPoint
  | CannotChangeDataDir
deriving DecidableEq

/-- A persisted vault record (spec section 3; diesel row behind `VaultDao`). -/
structure Vault where
  id : Nat
  name : String
  mount_point : String
  data_dir : String
  locked : Bool
deriving DecidableEq

/-- A spawned child-process handle (`tokio::process::Child`); `pid` is the
result of `Child::id()`, which can be `None`. -/
structure Child where
  pid : Option Nat
deriving DecidableEq

/-- Process statuses reported by the `sysinfo` crate that the supervisor
inspects; the code compares against `Dead`, `Zombie` and `Stop`
(vault_handler.rs:145-147). -/
inductive ProcStatus where
  | Idle
  | Run
  | Sleep
  | Stop
  | Zombie
  | Tracing
  | Dead
  | Unknown
deriving DecidableEq

/-- External actions an operation performs, in the order the code performs
them.  The trace of these actions lets theorems state that an operation did
no termination, no unmount, no spawn, no health check or no store access. -/
inductive Act where
  | dbUpdateLocked (id : Nat) (state : Bool)
  | dbGet (id : Nat)
  | dbUpdateMountPoint (id : Nat) (value : String)
  | dbUpdateDataDir (id : Nat) (value : String)
  | killChild (pid : Option Nat)
  | umount (mount_point : String)
  | spawnProc (mount_point data_dir : String)
  | statusCheck (pid : Nat)
  | psCheck (pid : Nat)
  | killCmd (pid : Nat)
deriving DecidableEq

/-- Modelled from the spec: the persisted vault store behind `VaultDao`
(its file is not under src/; spec section 6 gives its contract:
`get(id) -> VaultRecord | NotFoundError`, `update(id, field-changeset)
-> Success | Error`).  A store is the list of persisted records. -/
structure Store where
  vaults : List Vault
deriving DecidableEq

/-- Modelled from the spec: `VaultDao::get(id)` returns the record with the
given id, or fails when it is absent (or when the connection fails, which the
environments model separately). -/
def Store.get (db : Store) (id : Nat) : Option Vault :=
  db.vaults.find? (fun v => v.id == id)

/-- Modelled from the spec: `VaultDao::update(id, changeset)` applies a
field changeset to the record with the given id. -/
def Store.updateField (db : Store) (id : Nat) (f : Vault → Vault) : Store :=
  ⟨db.vaults.map (fun v => if v.id == id then f v else v)⟩

/-- The per-vault supervisor state (vault_handler.rs:30-34): the vault id and
the optional exclusively-owned child handle.  The shared connection is passed
separately as the `Store`. -/
structure VaultHandler where
  id : Nat
  child : Option Child
deriving DecidableEq

/-- Outcome of an operation: `Ok(())`, `Err(e)`, or a Rust panic/abort from
`expect`/`unwrap`/`panic!` with its message. -/
inductive Outcome where
  | ok
  | err (e : VaultHandlerError)
  | aborted (msg : String)
deriving DecidableEq

/-- Result of running one supervisor operation: outcome, new handler state,
new store contents, and the trace of external actions performed. -/
structure OpResult where
  out : Outcome
  handler : VaultHandler
  db : Store
  trace : List Act
deriving DecidableEq

/-- Environment for `lock`: success of the `locked=true` store write, of
`Child::kill`, of the `dao.get` read before umount, and of running the
`umount` utility (whose failure the code turns into a panic via `expect`). -/
structure LockEnv where
  updateOk : Bool
  killOk : Bool
  getOk : Bool
  umountOk : Bool
deriving DecidableEq

/-- Environment for `unlock`: project-dirs resolution, log-file creation,
the store read, the spawn result, the process-table status of the spawned
pid, the `ps` scan (whether the command ran, and whether its output contains
the defunct marker), the `kill` utility, and the final `locked=false` store
write. -/
structure UnlockEnv where
  projDirsOk : Bool
  stdoutOk : Bool
  stderrOk : Bool
  getOk : Bool
  spawned : Option Child
  status : Option ProcStatus
  psOk : Bool
  psDefunct : Bool
  killCmdOk : Bool
  updateOk : Bool
deriving DecidableEq

/-- Environment for `change_mount_point` / `change_data_dir`: the embedded
lock environment, the field-update write, the `dao.get` read used by the
`println` in `change_data_dir` (unwrapped there), and the embedded unlock
environment. -/
structure ChangeEnv where
  lockEnv : LockEnv
  updateOk : Bool
  getOk : Bool
  unlockEnv : UnlockEnv
deriving DecidableEq

/-- Embedding of `VaultHandler::lock` (vault_handler.rs:41-84).  Writes `locked=true`
unconditionally; on write failure returns `CannotLockVault` untouched.
Otherwise, with no tracked child it returns success at once; with a tracked
child it takes the handle out of the slot, kills it (failure:
`CannotLockVault`), and on POSIX-like platforms re-reads the record (failure:
`CannotLockVault`) and forces `umount` of its mount point (failure: panic
via `expect`). -/
def VaultHandler.lock (h : VaultHandler) (db : Store) (e : LockEnv)
    (posix : Bool) : OpResult :=
  if e.updateOk = false then
    { out := .err .CannotLockVault, handler := h, db := db,
      trace := [.dbUpdateLocked h.id true] }
  else
    let db1 := db.updateField h.id (fun v => { v with locked := true })
    match h.child with
    | none =>
      { out := .ok, handler := h, db := db1,
        trace := [.dbUpdateLocked h.id true] }
    | some c =>
      let h1 : VaultHandler := { h with child := none }
      if e.killOk = false then
        { out := .err .CannotLockVault, handler := h1, db := db1,
          trace := [.dbUpdateLocked h.id true, .killChild c.pid] }
      else if posix then
        match (if e.getOk then db1.get h.id else none) with
        | some v =>
          if e.umountOk then
            { out := .ok, handler := h1, db := db1,
              trace := [.dbUpdateLocked h.id true, .killChild c.pid,
                        .dbGet h.id, .umount v.mount_point] }
          else
            { out := .aborted "Cannot umount vault", handler := h1, db := db1,
              trace := [.dbUpdateLocked h.id true, .killChild c.pid,
                        .dbGet h.id, .umount v.mount_point] }
        | none =>
          { out := .err .CannotLockVault, handler := h1, db := db1,
            trace := [.dbUpdateLocked h.id true, .killChild c.pid,
                      .dbGet h.id] }
      else
        { out := .ok, handler := h1, db := db1,
          trace := [.dbUpdateLocked h.id true, .killChild c.pid] }

/-- The status-based half of the health classification
(vault_handler.rs:145-147): `Dead`, `Zombie` or `Stop`. -/
def defunctStatus (st : ProcStatus) : Bool :=
  st == .Dead || st == .Zombie || st == .Stop

/-- Tail of `unlock` once a healthy child exists (vault_handler.rs:181-191):
store the handle, then write `locked=false`; on write failure return
`CannotUnlockVault` with the handle still stored and the store unchanged. -/
def unlockFinish (h : VaultHandler) (c : Child) (db : Store) (e : UnlockEnv)
    (tr : List Act) : OpResult :=
  let h1 : VaultHandler := { h with child := some c }
  let trF := tr ++ [.dbUpdateLocked h.id false]
  if e.updateOk then
    { out := .ok, handler := h1,
      db := db.updateField h.id (fun v => { v with locked := false }),
      trace := trF }
  else
    { out := .err .CannotUnlockVault, handler := h1, db := db, trace := trF }

/-- Embedding of `VaultHandler::unlock` (vault_handler.rs:86-192).  With a tracked child
it returns success at once.  Otherwise: resolve project dirs and open log
files (failures panic), read the record (failure returns the LOCK error kind,
`CannotLockVault` — vault_handler.rs:110), spawn (failure:
`CannotUnlockVault`), wait, check the pid and the process table, classify
defunct (status in {Dead, Zombie, Stop}, or else on POSIX a `ps` scan for a
defunct marker), on defunct force-kill on POSIX and return
`CannotUnlockVault` with no handle stored; on healthy, store the handle and
write `locked=false`. -/
def VaultHandler.unlock (h : VaultHandler) (db : Store) (e : UnlockEnv)
    (posix : Bool) : OpResult :=
  match h.child with
  | some _ => { out := .ok, handler := h, db := db, trace := [] }
  | none =>
    if e.projDirsOk = false then
      { out := .aborted "Cannot get project directories", handler := h,
        db := db, trace := [] }
    else if e.stdoutOk = false then
      { out := .aborted "Cannot create stdout file", handler := h,
        db := db, trace := [] }
    else if e.stderrOk = false then
      { out := .aborted "Cannot create stderr file", handler := h,
        db := db, trace := [] }
    else
      match (if e.getOk then db.get h.id else none) with
      | none =>
        { out := .err .CannotLockVault, handler := h, db := db,
          trace := [.dbGet h.id] }
      | some v =>
        match e.spawned with
        | none =>
          { out := .err .CannotUnlockVault, handler := h, db := db,
            trace := [.dbGet h.id, .spawnProc v.mount_point v.data_dir] }
        | some c =>
          match c.pid with
          | none =>
            { out := .err .CannotUnlockVault, handler := h, db := db,
              trace := [.dbGet h.id, .spawnProc v.mount_point v.data_dir] }
          | some pid =>
            let tr0 : List Act :=
              [.dbGet h.id, .spawnProc v.mount_point v.data_dir,
               .statusCheck pid]
            match e.status with
            | none =>
              { out := .err .CannotUnlockVault, handler := h, db := db,
                trace := tr0 }
            | some st =>
              if defunctStatus st then
                if posix then
                  if e.killCmdOk then
                    { out := .err .CannotUnlockVault, handler := h, db := db,
                      trace := tr0 ++ [.killCmd pid] }
                  else
                    { out := .aborted "Cannot kill process", handler := h,
                      db := db, trace := tr0 ++ [.killCmd pid] }
                else
                  { out := .err .CannotUnlockVault, handler := h, db := db,
                    trace := tr0 }
              else if posix then
                if e.psOk = false then
                  { out := .aborted "Cannot run ps command", handler := h,
                    db := db, trace := tr0 ++ [.psCheck pid] }
                else if e.psDefunct then
                  if e.killCmdOk then
                    { out := .err .CannotUnlockVault, handler := h, db := db,
                      trace := tr0 ++ [.psCheck pid, .killCmd pid] }
                  else
                    { out := .aborted "Cannot kill process", handler := h,
                      db := db, trace := tr0 ++ [.psCheck pid, .killCmd pid] }
                else
                  unlockFinish h c db e (tr0 ++ [.psCheck pid])
              else
                unlockFinish h c db e tr0

/-- Rest of `VaultHandler::change_mount_point` after the embedded `lock`
(vault_handler.rs:203-219), as a function of the `lock` result `r1`: if
`lock` did not succeed, its result is returned unchanged (the `?`
operator); otherwise the field update runs (failure:
`CannotChangeMountPoint`) and then the full `unlock`, whose failure also
propagates unchanged. -/
def changeMpTail (id : Nat) (value : String) (e : ChangeEnv) (posix : Bool)
    (r1 : OpResult) : OpResult :=
  match r1.out with
  | .ok =>
    if e.updateOk = false then
      { out := .err .CannotChangeMountPoint, handler := r1.handler,
        db := r1.db, trace := r1.trace ++ [.dbUpdateMountPoint id value] }
    else
      let db2 := r1.db.updateField id (fun v => { v with mount_point := value })
      let r3 := r1.handler.unlock db2 e.unlockEnv posix
      { r3 with
        trace := r1.trace ++ [.dbUpdateMountPoint id value] ++ r3.trace }
  | _ => r1

/-- Embedding of `VaultHandler::change_mount_point` (vault_handler.rs:194-220).
`unlocked` is decided from the original child slot; if unlocked, the full
`lock()` runs first and its failure propagates UNCHANGED through `?`, then
`changeMpTail` finishes the operation; if locked, only the field update
runs. -/
def VaultHandler.change_mount_point (h : VaultHandler) (db : Store)
    (e : ChangeEnv) (posix : Bool) (value : String) : OpResult :=
  match h.child with
  | none =>
    if e.updateOk = false then
      { out := .err .CannotChangeMountPoint, handler := h, db := db,
        trace := [.dbUpdateMountPoint h.id value] }
    else
      { out := .ok, handler := h,
        db := db.updateField h.id (fun v => { v with mount_point := value }),
        trace := [.dbUpdateMountPoint h.id value] }
  | some _ => changeMpTail h.id value e posix (h.lock db e.lockEnv posix)

/-- Rest of `VaultHandler::change_data_dir` after the embedded `lock`
(vault_handler.rs:231-248), as a function of the `lock` result `r1`.  Same
shape as `changeMpTail`, plus the `println` that re-reads the record and
unwraps the result (vault_handler.rs:241) — its failure is a panic. -/
def changeDdTail (id : Nat) (value : String) (e : ChangeEnv) (posix : Bool)
    (r1 : OpResult) : OpResult :=
  match r1.out with
  | .ok =>
    if e.updateOk = false then
      { out := .err .CannotChangeDataDir, handler := r1.handler,
        db := r1.db, trace := r1.trace ++ [.dbUpdateDataDir id value] }
    else
      let db2 := r1.db.updateField id (fun v => { v with data_dir := value })
      match (if e.getOk then db2.get id else none) with
      | none =>
        { out := .aborted "called Option unwrap on a None value",
          handler := r1.handler, db := db2,
          trace := r1.trace ++ [.dbUpdateDataDir id value, .dbGet id] }
      | some _ =>
        let r3 := r1.handler.unlock db2 e.unlockEnv posix
        { r3 with
          trace := r1.trace ++ [.dbUpdateDataDir id value, .dbGet id]
                     ++ r3.trace }
  | _ => r1

/-- Embedding of `VaultHandler::change_data_dir` (vault_handler.rs:222-249). -/
def VaultHandler.change_data_dir (h : VaultHandler) (db : Store)
    (e : ChangeEnv) (posix : Bool) (value : String) : OpResult :=
  match h.child with
  | none =>
    if e.updateOk = false then
      { out := .err .CannotChangeDataDir, handler := h, db := db,
        trace := [.dbUpdateDataDir h.id value] }
    else
      match (if e.getOk then
              (db.updateField h.id (fun v => { v with data_dir := value })).get h.id
             else none) with
      | none =>
        { out := .aborted "called Option unwrap on a None value",
          handler := h,
          db := db.updateField h.id (fun v => { v with data_dir := value }),
          trace := [.dbUpdateDataDir h.id value, .dbGet h.id] }
      | some _ =>
        { out := .ok, handler := h,
          db := db.updateField h.id (fun v => { v with data_dir := value }),
          trace := [.dbUpdateDataDir h.id value, .dbGet h.id] }
  | some _ => changeDdTail h.id value e posix (h.lock db e.lockEnv posix)

/-- One supervisor call together with its environment, for reasoning about
call sequences on a single vault id. -/
inductive Op where
  | lockOp (e : LockEnv)
  | unlockOp (e : UnlockEnv)
  | changeMountPointOp (e : ChangeEnv) (value : String)
  | changeDataDirOp (e : ChangeEnv) (value : String)

/-- Dispatch one call. -/
def runOp (posix : Bool) (h : VaultHandler) (db : Store) : Op → OpResult
  | .lockOp e => h.lock db e posix
  | .unlockOp e => h.unlock db e posix
  | .changeMountPointOp e v => h.change_mount_point db e posix v
  | .changeDataDirOp e v => h.change_data_dir db e posix v

/-- Run a sequence of calls on one supervisor instance, threading handler
and store state and accumulating the action trace.  A panic stops the run
(the process is gone); an error result leaves the supervisor callable. -/
def runOps (posix : Bool) : VaultHandler → Store → List Op →
    VaultHandler × Store × List Act
  | h, _db, [] => (h, _db, [])
  | h, db, op :: ops =>
    let r := runOp posix h db op
    match r.out with
    | .aborted _ => (r.handler, r.db, r.trace)
    | _ =>
      let rest := runOps posix r.handler r.db ops
      (rest.1, rest.2.1, r.trace ++ rest.2.2)

/-- No action in the trace is a `data_dir` field update. -/
def noDataDirUpdate (tr : List Act) : Bool :=
  tr.all (fun a => match a with | .dbUpdateDataDir _ _ => false | _ => true)

/-- No action in the trace is a `mount_point` field update. -/
def noMountPointUpdate (tr : List Act) : Bool :=
  tr.all (fun a => match a with | .dbUpdateMountPoint _ _ => false | _ => true)

/-- No action in the trace touches a process: no `Child::kill`, no umount,
no spawn, no `kill` utility. -/
def noProcessAct (tr : List Act) : Bool :=
  tr.all (fun a => match a with
    | .killChild _ => false
    | .umount _ => false
    | .spawnProc _ _ => false
    | .killCmd _ => false
    | _ => true)

/-- No action in the trace terminates a process (`Child::kill` or the
`kill` utility). -/
def noKillAct (tr : List Act) : Bool :=
  tr.all (fun a => match a with
    | .killChild _ => false
    | .killCmd _ => false
    | _ => true)

/-- Some action in the trace spawns a process. -/
def hasSpawn (tr : List Act) : Bool :=
  tr.any (fun a => match a with | .spawnProc _ _ => true | _ => false)

/-- Some action in the trace is a `Child::kill` of the given pid. -/
def hasKillOf (p : Option Nat) (tr : List Act) : Bool :=
  tr.any (fun a => a == .killChild p)

theorem find?_map_update (l : List Vault) (id : Nat) (f : Vault → Vault)
    (hf : ∀ v, (f v).id = v.id) :
    (l.map (fun v => if v.id == id then f v else v)).find?
        (fun v => v.id == id)
      = (l.find? (fun v => v.id == id)).map f := by
  induction l with
  | nil => rfl
  | cons v t ih =>
    simp only [List.map_cons]
    by_cases hv : (v.id == id) = true
    · have hfv : ((f v).id == id) = true := by rw [hf]; exact hv
      rw [if_pos hv,
        List.find?_cons_of_pos (p := fun (w : Vault) => w.id == id) _ hfv,
        List.find?_cons_of_pos (p := fun (w : Vault) => w.id == id) _ hv,
        Option.map_some']
    · rw [if_neg hv,
        List.find?_cons_of_neg (p := fun (w : Vault) => w.id == id) _
          (by simpa using hv),
        List.find?_cons_of_neg (p := fun (w : Vault) => w.id == id) _
          (by simpa using hv)]
      exact ih

/-- Reading back the updated id after an id-preserving field update gives
the updated record. -/
theorem Store.get_updateField (db : Store) (id : Nat) (f : Vault → Vault)
    (hf : ∀ v, (f v).id = v.id) :
    (db.updateField id f).get id = (db.get id).map f :=
  find?_map_update db.vaults id f hf

theorem hasSpawn_append (a b : List Act) :
    hasSpawn (a ++ b) = (hasSpawn a || hasSpawn b) :=
  List.any_append

theorem hasKillOf_append (p : Option Nat) (a b : List Act) :
    hasKillOf p (a ++ b) = (hasKillOf p a || hasKillOf p b) :=
  List.any_append

/-- A failing `locked=true` write makes `lock` return `CannotLockVault`
with handler and store untouched and only the attempted write in the
trace. -/
theorem lock_updateFail (h : VaultHandler) (db : Store) (e : LockEnv)
    (posix : Bool) (hupd : e.updateOk = false) :
    h.lock db e posix =
      { out := .err .CannotLockVault, handler := h, db := db,
        trace := [.dbUpdateLocked h.id true] } := by
  simp [VaultHandler.lock, hupd]

/-- Running `lock` with no tracked child and a successful write: success, handler
unchanged, `locked=true` written, and the write is the only action. -/
theorem lock_noChild (h : VaultHandler) (db : Store) (e : LockEnv)
    (posix : Bool) (hc : h.child = none) (hupd : e.updateOk = true) :
    h.lock db e posix =
      { out := .ok, handler := h,
        db := db.updateField h.id (fun v => { v with locked := true }),
        trace := [.dbUpdateLocked h.id true] } := by
  simp [VaultHandler.lock, hupd, hc]

/-- Running `lock` with a tracked child and a successful write takes the handle out
of the slot (before the kill result is even known) and attempts the kill. -/
theorem lock_withChild (h : VaultHandler) (db : Store) (e : LockEnv)
    (posix : Bool) (c : Child) (hc : h.child = some c)
    (hupd : e.updateOk = true) :
    (h.lock db e posix).handler = { h with child := none } ∧
    Act.killChild c.pid ∈ (h.lock db e posix).trace := by
  simp [VaultHandler.lock, hupd, hc]
  repeat' split <;> try simp_all

/-- Lemma: `lock` never stores a new handle: the resulting handler is the original
one or the original one with an emptied slot. -/
theorem lock_handler_cases (h : VaultHandler) (db : Store) (e : LockEnv)
    (posix : Bool) :
    (h.lock db e posix).handler = h ∨
    (h.lock db e posix).handler = { h with child := none } := by
  unfold VaultHandler.lock
  repeat' split <;> try simp_all

/-- The store after `lock` is either untouched or has `locked=true` written
to the record of this vault id. -/
theorem lock_db_cases (h : VaultHandler) (db : Store) (e : LockEnv)
    (posix : Bool) :
    (h.lock db e posix).db = db ∨
    (h.lock db e posix).db
      = db.updateField h.id (fun v => { v with locked := true }) := by
  unfold VaultHandler.lock
  repeat' split <;> try simp_all

/-- Lemma: `lock` performs no field update of `mount_point` or `data_dir`. -/
theorem lock_no_field_update (h : VaultHandler) (db : Store) (e : LockEnv)
    (posix : Bool) :
    noDataDirUpdate (h.lock db e posix).trace = true ∧
    noMountPointUpdate (h.lock db e posix).trace = true := by
  unfold VaultHandler.lock
  repeat' split <;> try simp [noDataDirUpdate, noMountPointUpdate]

/-- If a handle was tracked, after `lock` it is either still tracked
unchanged (the write failed) or a kill of it was attempted. -/
theorem lock_exit (h : VaultHandler) (db : Store) (e : LockEnv)
    (posix : Bool) (c : Child) (hc : h.child = some c) :
    (h.lock db e posix).handler.child = some c ∨
    hasKillOf c.pid (h.lock db e posix).trace = true := by
  cases hupd : e.updateOk with
  | false => left ; rw [lock_updateFail h db e posix hupd] ; exact hc
  | true =>
    right
    have hm := (lock_withChild h db e posix c hc hupd).2
    simp only [hasKillOf, List.any_eq_true]
    exact ⟨_, hm, by simp⟩

/-- Running `unlock` with a tracked child returns success immediately and changes
nothing: no store access, no spawn, no health check. -/
theorem unlock_withChild (h : VaultHandler) (db : Store) (e : UnlockEnv)
    (posix : Bool) (c : Child) (hc : h.child = some c) :
    h.unlock db e posix =
      { out := .ok, handler := h, db := db, trace := [] } := by
  unfold VaultHandler.unlock
  rw [hc]

/-- Lemma: `unlock` either leaves the handler untouched, or the slot was empty and
a spawn appears in the trace (the only way a new handle can enter). -/
theorem unlock_cases (h : VaultHandler) (db : Store) (e : UnlockEnv)
    (posix : Bool) :
    (h.unlock db e posix).handler = h ∨
    (h.child = none ∧ hasSpawn (h.unlock db e posix).trace = true) := by
  cases hc : h.child with
  | some c2 => left ; rw [unlock_withChild h db e posix c2 hc]
  | none =>
    unfold VaultHandler.unlock unlockFinish
    rw [hc]
    repeat' split
    all_goals simp [hasSpawn, hc]

/-- A new handle after `changeMpTail` comes from the lock result unchanged
or from a spawn recorded in the trace. -/
theorem changeMpTail_enter (id : Nat) (value : String) (e : ChangeEnv)
    (posix : Bool) (r1 : OpResult) (c : Child)
    (hr : (changeMpTail id value e posix r1).handler.child = some c) :
    r1.handler.child = some c ∨
    hasSpawn (changeMpTail id value e posix r1).trace = true := by
  revert hr
  unfold changeMpTail
  cases ho : r1.out <;> simp only [ho]
  · split
    · intro hr ; exact Or.inl hr
    · intro hr
      rcases unlock_cases r1.handler
          (r1.db.updateField id (fun v => { v with mount_point := value }))
          e.unlockEnv posix with hu | ⟨hn, hs⟩
      · rw [hu] at hr ; exact Or.inl hr
      · right
        simp only [hasSpawn_append, hs]
        simp
  · intro hr ; exact Or.inl hr
  · intro hr ; exact Or.inl hr

/-- If the lock result still tracks the handle or already attempted its
kill, the same holds after `changeMpTail`. -/
theorem changeMpTail_exit (id : Nat) (value : String) (e : ChangeEnv)
    (posix : Bool) (r1 : OpResult) (c : Child)
    (hd : r1.handler.child = some c ∨ hasKillOf c.pid r1.trace = true) :
    (changeMpTail id value e posix r1).handler.child = some c ∨
    hasKillOf c.pid (changeMpTail id value e posix r1).trace = true := by
  unfold changeMpTail
  cases ho : r1.out <;> simp only [ho]
  · split
    · rcases hd with hd | hd
      · exact Or.inl hd
      · right ; simp only [hasKillOf_append, hd] ; simp
    · rcases hd with hd | hd
      · rw [unlock_withChild r1.handler _ e.unlockEnv posix c hd]
        exact Or.inl hd
      · right ; simp only [hasKillOf_append, hd] ; simp
  · exact hd
  · exact hd

/-- A new handle after `changeDdTail` comes from the lock result unchanged
or from a spawn recorded in the trace. -/
theorem changeDdTail_enter (id : Nat) (value : String) (e : ChangeEnv)
    (posix : Bool) (r1 : OpResult) (c : Child)
    (hr : (changeDdTail id value e posix r1).handler.child = some c) :
    r1.handler.child = some c ∨
    hasSpawn (changeDdTail id value e posix r1).trace = true := by
  revert hr
  unfold changeDdTail
  cases ho : r1.out <;> simp only [ho]
  · split
    · intro hr ; exact Or.inl hr
    · split
      · intro hr ; exact Or.inl hr
      · intro hr
        rcases unlock_cases r1.handler
            (r1.db.updateField id (fun v => { v with data_dir := value }))
            e.unlockEnv posix with hu | ⟨hn, hs⟩
        · rw [hu] at hr ; exact Or.inl hr
        · right
          simp only [hasSpawn_append, hs]
          simp
  · intro hr ; exact Or.inl hr
  · intro hr ; exact Or.inl hr

/-- If the lock result still tracks the handle or already attempted its
kill, the same holds after `changeDdTail`. -/
theorem changeDdTail_exit (id : Nat) (value : String) (e : ChangeEnv)
    (posix : Bool) (r1 : OpResult) (c : Child)
    (hd : r1.handler.child = some c ∨ hasKillOf c.pid r1.trace = true) :
    (changeDdTail id value e posix r1).handler.child = some c ∨
    hasKillOf c.pid (changeDdTail id value e posix r1).trace = true := by
  unfold changeDdTail
  cases ho : r1.out <;> simp only [ho]
  · split
    · rcases hd with hd | hd
      · exact Or.inl hd
      · right ; simp only [hasKillOf_append, hd] ; simp
    · split
      · rcases hd with hd | hd
        · exact Or.inl hd
        · right ; simp only [hasKillOf_append, hd] ; simp
      · rcases hd with hd | hd
        · rw [unlock_withChild r1.handler _ e.unlockEnv posix c hd]
          exact Or.inl hd
        · right ; simp only [hasKillOf_append, hd] ; simp
  · exact hd
  · exact hd

/-- With no tracked child (no relock), the change operations leave the
handler unchanged. -/
theorem change_mount_point_noChild_handler (h : VaultHandler) (db : Store)
    (e : ChangeEnv) (posix : Bool) (value : String) (hc : h.child = none) :
    (h.change_mount_point db e posix value).handler = h := by
  unfold VaultHandler.change_mount_point
  rw [hc]
  repeat' split
  all_goals first | rfl | contradiction

/-- With no tracked child (no relock), `change_data_dir` leaves the handler
unchanged. -/
theorem change_data_dir_noChild_handler (h : VaultHandler) (db : Store)
    (e : ChangeEnv) (posix : Bool) (value : String) (hc : h.child = none) :
    (h.change_data_dir db e posix value).handler = h := by
  unfold VaultHandler.change_data_dir
  rw [hc]
  repeat' split
  all_goals first | rfl | contradiction

/-- One supervisor call stores a new handle only when a spawn appears in
its trace. -/
theorem runOp_enter (posix : Bool) (h : VaultHandler) (db : Store) (op : Op)
    (c : Child) (hr : (runOp posix h db op).handler.child = some c) :
    h.child = some c ∨ hasSpawn (runOp posix h db op).trace = true := by
  cases op with
  | lockOp e =>
    rcases lock_handler_cases h db e posix with hl | hl
    · rw [runOp] at hr ; rw [hl] at hr ; exact Or.inl hr
    · rw [runOp] at hr ; rw [hl] at hr ; simp at hr
  | unlockOp e =>
    rcases unlock_cases h db e posix with hu | ⟨hn, hs⟩
    · rw [runOp] at hr ; rw [hu] at hr ; exact Or.inl hr
    · exact Or.inr hs
  | changeMountPointOp e value =>
    rw [runOp] at hr ⊢
    cases hc : h.child with
    | none =>
      rw [change_mount_point_noChild_handler h db e posix value hc, hc] at hr
      exact absurd hr (by simp)
    | some c2 =>
      unfold VaultHandler.change_mount_point at hr
      rw [hc] at hr
      rcases changeMpTail_enter h.id value e posix
          (h.lock db e.lockEnv posix) c hr with hm | hm
      · rcases lock_handler_cases h db e.lockEnv posix with hl | hl
        · rw [hl] at hm ; rw [hc] at hm ; exact Or.inl hm
        · rw [hl] at hm ; simp at hm
      · unfold VaultHandler.change_mount_point
        rw [hc]
        exact Or.inr hm
  | changeDataDirOp e value =>
    rw [runOp] at hr ⊢
    cases hc : h.child with
    | none =>
      rw [change_data_dir_noChild_handler h db e posix value hc, hc] at hr
      exact absurd hr (by simp)
    | some c2 =>
      unfold VaultHandler.change_data_dir at hr
      rw [hc] at hr
      rcases changeDdTail_enter h.id value e posix
          (h.lock db e.lockEnv posix) c hr with hm | hm
      · rcases lock_handler_cases h db e.lockEnv posix with hl | hl
        · rw [hl] at hm ; rw [hc] at hm ; exact Or.inl hm
        · rw [hl] at hm ; simp at hm
      · unfold VaultHandler.change_data_dir
        rw [hc]
        exact Or.inr hm

/-- A tracked handle leaves the slot only after an attempted kill of it. -/
theorem runOp_exit (posix : Bool) (h : VaultHandler) (db : Store) (op : Op)
    (c : Child) (hc : h.child = some c) :
    (runOp posix h db op).handler.child = some c ∨
    hasKillOf c.pid (runOp posix h db op).trace = true := by
  cases op with
  | lockOp e => exact lock_exit h db e posix c hc
  | unlockOp e =>
    rw [runOp, unlock_withChild h db e posix c hc]
    exact Or.inl hc
  | changeMountPointOp e value =>
    rw [runOp]
    unfold VaultHandler.change_mount_point
    rw [hc]
    exact changeMpTail_exit h.id value e posix _ c
      (lock_exit h db e.lockEnv posix c hc)
  | changeDataDirOp e value =>
    rw [runOp]
    unfold VaultHandler.change_data_dir
    rw [hc]
    exact changeDdTail_exit h.id value e posix _ c
      (lock_exit h db e.lockEnv posix c hc)

/-- With the umount utility succeeding, `lock` always returns (no panic):
success or `CannotLockVault`. -/
theorem lock_returns (h : VaultHandler) (db : Store) (e : LockEnv)
    (posix : Bool) (hum : e.umountOk = true) :
    (h.lock db e posix).out = .ok ∨
    (h.lock db e posix).out = .err .CannotLockVault := by
  unfold VaultHandler.lock
  repeat' split
  all_goals try simp_all
  all_goals
    rcases hg : (db.updateField h.id
        (fun v => { v with locked := true })).get h.id with _ | v <;>
      simp_all

/-- Claim C2: on a vault whose supervisor tracks no child handle, with the
record present and the store write succeeding, `lock` writes `locked=true`
to the persisted record, returns success, and performs no process action of
any kind (its entire trace is the single store write). -/
theorem C2_lock_no_child (h : VaultHandler) (db : Store) (e : LockEnv)
    (posix : Bool) (v : Vault) (hc : h.child = none) (hupd : e.updateOk = true)
    (hv : db.get h.id = some v) :
    (h.lock db e posix).out = .ok ∧
    ((h.lock db e posix).db).get h.id = some { v with locked := true } ∧
    (h.lock db e posix).trace = [Act.dbUpdateLocked h.id true] ∧
    noProcessAct (h.lock db e posix).trace = true := by
  rw [lock_noChild h db e posix hc hupd]
  refine ⟨rfl, ?_, rfl, rfl⟩
  show (db.updateField h.id (fun v => { v with locked := true })).get h.id
    = some { v with locked := true }
  rw [Store.get_updateField db h.id (fun v => { v with locked := true })
    (fun w => rfl), hv]
  rfl

/-- Claim C2 witness at a concrete vault. -/
theorem C2_witness :
    (VaultHandler.lock ⟨1, none⟩ ⟨[⟨1, "v1", "/mnt/v1", "/data/v1", false⟩]⟩
        ⟨true, true, true, true⟩ true).out = .ok ∧
    ((VaultHandler.lock ⟨1, none⟩ ⟨[⟨1, "v1", "/mnt/v1", "/data/v1", false⟩]⟩
        ⟨true, true, true, true⟩ true).db).get 1
      = some ⟨1, "v1", "/mnt/v1", "/data/v1", true⟩ ∧
    (VaultHandler.lock ⟨1, none⟩ ⟨[⟨1, "v1", "/mnt/v1", "/data/v1", false⟩]⟩
        ⟨true, true, true, true⟩ true).trace = [Act.dbUpdateLocked 1 true] ∧
    noProcessAct (VaultHandler.lock ⟨1, none⟩
        ⟨[⟨1, "v1", "/mnt/v1", "/data/v1", false⟩]⟩
        ⟨true, true, true, true⟩ true).trace = true :=
  C2_lock_no_child ⟨1, none⟩ ⟨[⟨1, "v1", "/mnt/v1", "/data/v1", false⟩]⟩
    ⟨true, true, true, true⟩ true ⟨1, "v1", "/mnt/v1", "/data/v1", false⟩
    rfl rfl rfl

/-- Claim C3: `unlock` on a vault whose supervisor already tracks a child
handle returns success with handler, store and trace (no store read, no
store write, no spawn, no health check) all unchanged/empty. -/
theorem C3_unlock_already_unlocked (h : VaultHandler) (db : Store)
    (e : UnlockEnv) (posix : Bool) (c : Child) (hc : h.child = some c) :
    h.unlock db e posix =
      { out := .ok, handler := h, db := db, trace := [] } :=
  unlock_withChild h db e posix c hc

/-- Claim C3 witness at a concrete vault. -/
theorem C3_witness :
    VaultHandler.unlock ⟨1, some ⟨some 7⟩⟩ ⟨[]⟩
        ⟨true, true, true, true, none, none, true, false, true, true⟩ true =
      { out := .ok, handler := ⟨1, some ⟨some 7⟩⟩, db := ⟨[]⟩, trace := [] } :=
  C3_unlock_already_unlocked ⟨1, some ⟨some 7⟩⟩ ⟨[]⟩
    ⟨true, true, true, true, none, none, true, false, true, true⟩ true
    ⟨some 7⟩ rfl

/-- Claim C4: if the initial `locked=true` store write inside `lock` fails,
`lock` returns `CannotLockVault`, the handler (and so any tracked child
handle) is untouched, the store is untouched, and no process action was
performed. -/
theorem C4_lock_update_failure (h : VaultHandler) (db : Store) (e : LockEnv)
    (posix : Bool) (hupd : e.updateOk = false) :
    (h.lock db e posix).out = .err .CannotLockVault ∧
    (h.lock db e posix).handler = h ∧
    (h.lock db e posix).db = db ∧
    noProcessAct (h.lock db e posix).trace = true := by
  rw [lock_updateFail h db e posix hupd]
  exact ⟨rfl, rfl, rfl, rfl⟩

/-- Claim C4 witness: a concrete vault with a tracked handle whose store
write fails keeps the handle tracked. -/
theorem C4_witness :
    (VaultHandler.lock ⟨1, some ⟨some 7⟩⟩ ⟨[]⟩ ⟨false, true, true, true⟩
        true).out = .err .CannotLockVault ∧
    (VaultHandler.lock ⟨1, some ⟨some 7⟩⟩ ⟨[]⟩ ⟨false, true, true, true⟩
        true).handler = ⟨1, some ⟨some 7⟩⟩ ∧
    (VaultHandler.lock ⟨1, some ⟨some 7⟩⟩ ⟨[]⟩ ⟨false, true, true, true⟩
        true).db = ⟨[]⟩ ∧
    noProcessAct (VaultHandler.lock ⟨1, some ⟨some 7⟩⟩ ⟨[]⟩
        ⟨false, true, true, true⟩ true).trace = true :=
  C4_lock_update_failure ⟨1, some ⟨some 7⟩⟩ ⟨[]⟩ ⟨false, true, true, true⟩
    true rfl

/-- Claim C5: the code path the claim describes.  With no tracked child and
a failing store read, `unlock` returns the LOCK error kind
`CannotLockVault` (vault_handler.rs:110), not `CannotUnlockVault` as the
claim (and the spec design intent) states. -/
theorem C5_unlock_get_failure_returns_lock_kind :
    (VaultHandler.unlock ⟨1, none⟩ ⟨[⟨1, "v1", "/mnt/v1", "/data/v1", true⟩]⟩
        ⟨true, true, true, false, some ⟨some 7⟩, some .Run, true, false, true,
         true⟩ true).out = .err .CannotLockVault ∧
    Outcome.err .CannotLockVault ≠ Outcome.err .CannotUnlockVault := by
  exact ⟨rfl, by decide⟩

/-- Claim C6: when the spawned process is classified defunct after the
warm-up (status Dead/Zombie/Stop, or else the `ps` output contains the
defunct marker) on a POSIX-like platform, `unlock` issues the force-kill
fallback on the spawned pid, returns `CannotUnlockVault`, and stores no
child handle. -/
theorem C6_defunct_cleanup (h : VaultHandler) (db : Store) (e : UnlockEnv)
    (v : Vault) (c : Child) (pid : Nat) (st : ProcStatus)
    (hc : h.child = none) (h1 : e.projDirsOk = true) (h2 : e.stdoutOk = true)
    (h3 : e.stderrOk = true) (h4 : e.getOk = true) (hv : db.get h.id = some v)
    (h5 : e.spawned = some c) (h6 : c.pid = some pid) (h7 : e.status = some st)
    (hdef : (defunctStatus st || e.psDefunct) = true)
    (h8 : e.psOk = true) (h9 : e.killCmdOk = true) :
    (h.unlock db e true).out = .err .CannotUnlockVault ∧
    (h.unlock db e true).handler.child = none ∧
    Act.killCmd pid ∈ (h.unlock db e true).trace := by
  by_cases hst : defunctStatus st = true
  · simp [VaultHandler.unlock, hc, h1, h2, h3, h4, hv, h5, h6, h7, hst, h9]
  · have hst0 : defunctStatus st = false := by
      revert hst ; cases defunctStatus st <;> simp
    have hps : e.psDefunct = true := by
      rw [hst0] at hdef ; simpa using hdef
    simp [VaultHandler.unlock, hc, h1, h2, h3, h4, hv, h5, h6, h7, hst0, hps,
      h8, h9]

/-- Claim C6 witness: a concrete zombie process is force-killed. -/
theorem C6_witness :
    (VaultHandler.unlock ⟨1, none⟩ ⟨[⟨1, "v1", "/mnt/v1", "/data/v1", true⟩]⟩
        ⟨true, true, true, true, some ⟨some 7⟩, some .Zombie, true, false,
         true, true⟩ true).out = .err .CannotUnlockVault ∧
    (VaultHandler.unlock ⟨1, none⟩ ⟨[⟨1, "v1", "/mnt/v1", "/data/v1", true⟩]⟩
        ⟨true, true, true, true, some ⟨some 7⟩, some .Zombie, true, false,
         true, true⟩ true).handler.child = none ∧
    Act.killCmd 7 ∈ (VaultHandler.unlock ⟨1, none⟩
        ⟨[⟨1, "v1", "/mnt/v1", "/data/v1", true⟩]⟩
        ⟨true, true, true, true, some ⟨some 7⟩, some .Zombie, true, false,
         true, true⟩ true).trace :=
  C6_defunct_cleanup ⟨1, none⟩ ⟨[⟨1, "v1", "/mnt/v1", "/data/v1", true⟩]⟩
    ⟨true, true, true, true, some ⟨some 7⟩, some .Zombie, true, false, true,
     true⟩ ⟨1, "v1", "/mnt/v1", "/data/v1", true⟩ ⟨some 7⟩ 7 .Zombie
    rfl rfl rfl rfl rfl rfl rfl rfl rfl (by decide) rfl rfl

/-- Claim C7: if the final `locked=false` store write fails after a
successful spawn and health check, `unlock` returns `CannotUnlockVault`
while the spawned handle stays stored in the slot, the store is unchanged,
a spawn is in the trace and no kill of any kind was issued. -/
theorem C7_final_write_failure (h : VaultHandler) (db : Store) (e : UnlockEnv)
    (posix : Bool) (v : Vault) (c : Child) (pid : Nat) (st : ProcStatus)
    (hc : h.child = none) (h1 : e.projDirsOk = true) (h2 : e.stdoutOk = true)
    (h3 : e.stderrOk = true) (h4 : e.getOk = true) (hv : db.get h.id = some v)
    (h5 : e.spawned = some c) (h6 : c.pid = some pid) (h7 : e.status = some st)
    (hst : defunctStatus st = false) (hps : e.psDefunct = false)
    (h8 : e.psOk = true) (hupd : e.updateOk = false) :
    (h.unlock db e posix).out = .err .CannotUnlockVault ∧
    (h.unlock db e posix).handler.child = some c ∧
    (h.unlock db e posix).db = db ∧
    hasSpawn (h.unlock db e posix).trace = true ∧
    noKillAct (h.unlock db e posix).trace = true := by
  cases posix <;>
    simp [VaultHandler.unlock, unlockFinish, hc, h1, h2, h3, h4, hv, h5, h6,
      h7, hst, hps, h8, hupd, hasSpawn, noKillAct]

/-- Claim C7 witness: concrete healthy spawn with failing final write. -/
theorem C7_witness :
    (VaultHandler.unlock ⟨1, none⟩ ⟨[⟨1, "v1", "/mnt/v1", "/data/v1", true⟩]⟩
        ⟨true, true, true, true, some ⟨some 7⟩, some .Run, true, false, true,
         false⟩ true).out = .err .CannotUnlockVault ∧
    (VaultHandler.unlock ⟨1, none⟩ ⟨[⟨1, "v1", "/mnt/v1", "/data/v1", true⟩]⟩
        ⟨true, true, true, true, some ⟨some 7⟩, some .Run, true, false, true,
         false⟩ true).handler.child = some ⟨some 7⟩ ∧
    (VaultHandler.unlock ⟨1, none⟩ ⟨[⟨1, "v1", "/mnt/v1", "/data/v1", true⟩]⟩
        ⟨true, true, true, true, some ⟨some 7⟩, some .Run, true, false, true,
         false⟩ true).db = ⟨[⟨1, "v1", "/mnt/v1", "/data/v1", true⟩]⟩ ∧
    hasSpawn (VaultHandler.unlock ⟨1, none⟩
        ⟨[⟨1, "v1", "/mnt/v1", "/data/v1", true⟩]⟩
        ⟨true, true, true, true, some ⟨some 7⟩, some .Run, true, false, true,
         false⟩ true).trace = true ∧
    noKillAct (VaultHandler.unlock ⟨1, none⟩
        ⟨[⟨1, "v1", "/mnt/v1", "/data/v1", true⟩]⟩
        ⟨true, true, true, true, some ⟨some 7⟩, some .Run, true, false, true,
         false⟩ true).trace = true :=
  C7_final_write_failure ⟨1, none⟩ ⟨[⟨1, "v1", "/mnt/v1", "/data/v1", true⟩]⟩
    ⟨true, true, true, true, some ⟨some 7⟩, some .Run, true, false, true,
     false⟩ true ⟨1, "v1", "/mnt/v1", "/data/v1", true⟩ ⟨some 7⟩ 7 .Run
    rfl rfl rfl rfl rfl rfl rfl rfl rfl rfl rfl rfl rfl

/-- Claim C1, counterexample to the claim as frozen: an `unlock` whose
final store write fails returns `CannotUnlockVault` — it is not a
successful unlock — yet it has stored the spawned handle in the slot
(vault_handler.rs:181-189), so a handle is not stored only by a
SUCCESSFUL unlock. -/
theorem C1_counterexample :
    (VaultHandler.unlock ⟨1, none⟩ ⟨[⟨1, "v1", "/mnt/v1", "/data/v1", true⟩]⟩
        ⟨true, true, true, true, some ⟨some 7⟩, some .Run, true, false, true,
         false⟩ true).out = .err .CannotUnlockVault ∧
    (VaultHandler.unlock ⟨1, none⟩ ⟨[⟨1, "v1", "/mnt/v1", "/data/v1", true⟩]⟩
        ⟨true, true, true, true, some ⟨some 7⟩, some .Run, true, false, true,
         false⟩ true).handler.child = some ⟨some 7⟩ :=
  ⟨rfl, rfl⟩

/-- Claim C1 (amended): across any sequence of supervisor calls on one
vault id, the child slot (an `Option`, hence holding at most one handle at
any instant) gains a handle only through an operation whose trace contains
a spawn — the unlock path that passed its health check, which stores the
handle even when the final store write then fails — and loses a tracked
handle only after an attempted `Child::kill` of it, the lock/termination
sequence. -/
theorem C1_amended_handle_lifecycle (posix : Bool) (ops : List Op)
    (h : VaultHandler) (db : Store) (c : Child) :
    ((runOps posix h db ops).1.child = some c →
      h.child = some c ∨ hasSpawn (runOps posix h db ops).2.2 = true) ∧
    (h.child = some c →
      (runOps posix h db ops).1.child = some c ∨
      hasKillOf c.pid (runOps posix h db ops).2.2 = true) := by
  induction ops generalizing h db with
  | nil => exact ⟨fun hx => Or.inl hx, fun hx => Or.inl hx⟩
  | cons op ops ih =>
    cases ho : (runOp posix h db op).out with
    | aborted m =>
      simp only [runOps, ho]
      exact ⟨fun hx => runOp_enter posix h db op c hx,
             fun hx => runOp_exit posix h db op c hx⟩
    | ok =>
      simp only [runOps, ho]
      have IH := ih (runOp posix h db op).handler (runOp posix h db op).db
      constructor
      · intro hx
        rcases IH.1 hx with hi | hi
        · rcases runOp_enter posix h db op c hi with he | he
          · exact Or.inl he
          · right ; rw [hasSpawn_append, he] ; rfl
        · right ; rw [hasSpawn_append, hi] ; simp
      · intro hx
        rcases runOp_exit posix h db op c hx with he | he
        · rcases IH.2 he with hi | hi
          · exact Or.inl hi
          · right ; rw [hasKillOf_append, hi] ; simp
        · right ; rw [hasKillOf_append, he] ; rfl
    | err k =>
      simp only [runOps, ho]
      have IH := ih (runOp posix h db op).handler (runOp posix h db op).db
      constructor
      · intro hx
        rcases IH.1 hx with hi | hi
        · rcases runOp_enter posix h db op c hi with he | he
          · exact Or.inl he
          · right ; rw [hasSpawn_append, he] ; rfl
        · right ; rw [hasSpawn_append, hi] ; simp
      · intro hx
        rcases runOp_exit posix h db op c hx with he | he
        · rcases IH.2 he with hi | hi
          · exact Or.inl hi
          · right ; rw [hasKillOf_append, hi] ; simp
        · right ; rw [hasKillOf_append, he] ; rfl

/-- Claim C1 witness: a tracked handle survives an `unlock` call (it is
already unlocked), both implications discharged at this concrete run. -/
theorem C1_witness :
    ((VaultHandler.mk 1 (some ⟨some 7⟩)).child = some ⟨some 7⟩ ∨
      hasSpawn (runOps true ⟨1, some ⟨some 7⟩⟩ ⟨[]⟩
        [Op.unlockOp ⟨true, true, true, true, none, none, true, false, true,
          true⟩]).2.2 = true) ∧
    ((runOps true ⟨1, some ⟨some 7⟩⟩ ⟨[]⟩
        [Op.unlockOp ⟨true, true, true, true, none, none, true, false, true,
          true⟩]).1.child = some ⟨some 7⟩ ∨
      hasKillOf (some 7) (runOps true ⟨1, some ⟨some 7⟩⟩ ⟨[]⟩
        [Op.unlockOp ⟨true, true, true, true, none, none, true, false, true,
          true⟩]).2.2 = true) :=
  ⟨(C1_amended_handle_lifecycle true
      [Op.unlockOp ⟨true, true, true, true, none, none, true, false, true,
        true⟩] ⟨1, some ⟨some 7⟩⟩ ⟨[]⟩ ⟨some 7⟩).1 rfl,
   (C1_amended_handle_lifecycle true
      [Op.unlockOp ⟨true, true, true, true, none, none, true, false, true,
        true⟩] ⟨1, some ⟨some 7⟩⟩ ⟨[]⟩ ⟨some 7⟩).2 rfl⟩

/-- Claim C8, counterexample to the claim as frozen: when the embedded
`lock` inside `change_mount_point` fails, the caller receives
`CannotLockVault` — the lock failure kind is surfaced unchanged through
`?` (vault_handler.rs:200), not converted to `CannotChangeMountPoint`. -/
theorem C8_counterexample :
    (VaultHandler.change_mount_point ⟨1, some ⟨some 7⟩⟩
        ⟨[⟨1, "v1", "/mnt/v1", "/data/v1", false⟩]⟩
        ⟨⟨false, true, true, true⟩, true, true,
         ⟨true, true, true, true, some ⟨some 7⟩, some .Run, true, false,
          true, true⟩⟩ true "/mnt/new").out = .err .CannotLockVault ∧
    Outcome.err .CannotLockVault ≠ Outcome.err .CannotChangeMountPoint :=
  ⟨rfl, by decide⟩

/-- Claim C8 (amended), all three error-kind rules of the change
operations: (1) a failure of the embedded `lock` sub-sequence is propagated
to the caller unchanged as the underlying lock failure kind; (2) a failure
of the field update itself (whether or not a relock ran first) is reported
as the change-specific kind `CannotChangeMountPoint` /
`CannotChangeDataDir`; (3) a failure of the embedded `unlock` sub-sequence
after a successful relock and field update is propagated unchanged as the
underlying unlock failure kind. -/
theorem C8_amended_error_kinds :
    (∀ (h : VaultHandler) (db : Store) (e : ChangeEnv) (posix : Bool)
        (value : String) (k : VaultHandlerError) (c : Child),
      h.child = some c →
      (h.lock db e.lockEnv posix).out = .err k →
      (h.change_mount_point db e posix value).out = .err k ∧
      (h.change_data_dir db e posix value).out = .err k) ∧
    (∀ (h : VaultHandler) (db : Store) (e : ChangeEnv) (posix : Bool)
        (value : String),
      e.updateOk = false →
      (h.child = none ∨ (h.lock db e.lockEnv posix).out = .ok) →
      (h.change_mount_point db e posix value).out
        = .err .CannotChangeMountPoint ∧
      (h.change_data_dir db e posix value).out
        = .err .CannotChangeDataDir) ∧
    (∀ (h : VaultHandler) (db : Store) (e : ChangeEnv) (posix : Bool)
        (value : String) (k : VaultHandlerError) (c : Child),
      h.child = some c →
      (h.lock db e.lockEnv posix).out = .ok →
      e.updateOk = true →
      ((h.lock db e.lockEnv posix).handler.unlock
        ((h.lock db e.lockEnv posix).db.updateField h.id
          (fun v => { v with mount_point := value })) e.unlockEnv posix).out
        = .err k →
      (h.change_mount_point db e posix value).out = .err k) ∧
    (∀ (h : VaultHandler) (db : Store) (e : ChangeEnv) (posix : Bool)
        (value : String) (k : VaultHandlerError) (c : Child) (v : Vault),
      h.child = some c →
      (h.lock db e.lockEnv posix).out = .ok →
      e.updateOk = true →
      (if e.getOk then ((h.lock db e.lockEnv posix).db.updateField h.id
          (fun w => { w with data_dir := value })).get h.id
       else none) = some v →
      ((h.lock db e.lockEnv posix).handler.unlock
        ((h.lock db e.lockEnv posix).db.updateField h.id
          (fun w => { w with data_dir := value })) e.unlockEnv posix).out
        = .err k →
      (h.change_data_dir db e posix value).out = .err k) := by
  refine ⟨?_, ?_, ?_, ?_⟩
  · intro h db e posix value k c hc hlk
    unfold VaultHandler.change_mount_point VaultHandler.change_data_dir
      changeMpTail changeDdTail
    rw [hc]
    simp only [hlk]
    exact ⟨trivial, trivial⟩
  · intro h db e posix value hupd hok
    cases hc : h.child with
    | none =>
      unfold VaultHandler.change_mount_point VaultHandler.change_data_dir
      rw [hc]
      simp [hupd]
    | some c2 =>
      rcases hok with hok | hok
      · rw [hc] at hok ; exact absurd hok (by simp)
      · unfold VaultHandler.change_mount_point VaultHandler.change_data_dir
          changeMpTail changeDdTail
        rw [hc]
        simp only [hok, hupd]
        exact ⟨rfl, rfl⟩
  · intro h db e posix value k c hc hok hupd hu
    unfold VaultHandler.change_mount_point changeMpTail
    rw [hc]
    simp only [hok, hupd]
    simpa using hu
  · intro h db e posix value k c v hc hok hupd hg hu
    unfold VaultHandler.change_data_dir changeDdTail
    rw [hc]
    simp only [hok, hupd, hg]
    simpa using hu

/-- Claim C8 witness: all three rules exercised at concrete inputs — a
failing embedded lock surfaces `CannotLockVault` from both operations; a
failing field update (locked vault) yields the change-specific kinds; a
failing embedded unlock (spawn error after successful relock and update)
surfaces `CannotUnlockVault` from both operations. -/
theorem C8_witness :
    ((VaultHandler.change_mount_point ⟨1, some ⟨some 7⟩⟩
        ⟨[⟨1, "v1", "/mnt/v1", "/data/v1", false⟩]⟩
        ⟨⟨false, true, true, true⟩, true, true,
         ⟨true, true, true, true, none, none, true, false, true, true⟩⟩
        true "/mnt/new").out = .err .CannotLockVault ∧
      (VaultHandler.change_data_dir ⟨1, some ⟨some 7⟩⟩
        ⟨[⟨1, "v1", "/mnt/v1", "/data/v1", false⟩]⟩
        ⟨⟨false, true, true, true⟩, true, true,
         ⟨true, true, true, true, none, none, true, false, true, true⟩⟩
        true "/mnt/new").out = .err .CannotLockVault) ∧
    ((VaultHandler.change_mount_point ⟨1, none⟩
        ⟨[⟨1, "v1", "/mnt/v1", "/data/v1", true⟩]⟩
        ⟨⟨true, true, true, true⟩, false, true,
         ⟨true, true, true, true, none, none, true, false, true, true⟩⟩
        true "/mnt/new").out = .err .CannotChangeMountPoint ∧
      (VaultHandler.change_data_dir ⟨1, none⟩
        ⟨[⟨1, "v1", "/mnt/v1", "/data/v1", true⟩]⟩
        ⟨⟨true, true, true, true⟩, false, true,
         ⟨true, true, true, true, none, none, true, false, true, true⟩⟩
        true "/mnt/new").out = .err .CannotChangeDataDir) ∧
    (VaultHandler.change_mount_point ⟨1, some ⟨some 7⟩⟩
        ⟨[⟨1, "v1", "/mnt/v1", "/data/v1", false⟩]⟩
        ⟨⟨true, true, true, true⟩, true, true,
         ⟨true, true, true, true, none, none, true, false, true, true⟩⟩
        true "/mnt/new").out = .err .CannotUnlockVault ∧
    (VaultHandler.change_data_dir ⟨1, some ⟨some 7⟩⟩
        ⟨[⟨1, "v1", "/mnt/v1", "/data/v1", false⟩]⟩
        ⟨⟨true, true, true, true⟩, true, true,
         ⟨true, true, true, true, none, none, true, false, true, true⟩⟩
        true "/data/new").out = .err .CannotUnlockVault :=
  ⟨C8_amended_error_kinds.1 ⟨1, some ⟨some 7⟩⟩
      ⟨[⟨1, "v1", "/mnt/v1", "/data/v1", false⟩]⟩
      ⟨⟨false, true, true, true⟩, true, true,
       ⟨true, true, true, true, none, none, true, false, true, true⟩⟩
      true "/mnt/new" .CannotLockVault ⟨some 7⟩ rfl rfl,
   C8_amended_error_kinds.2.1 ⟨1, none⟩
      ⟨[⟨1, "v1", "/mnt/v1", "/data/v1", true⟩]⟩
      ⟨⟨true, true, true, true⟩, false, true,
       ⟨true, true, true, true, none, none, true, false, true, true⟩⟩
      true "/mnt/new" rfl (Or.inl rfl),
   C8_amended_error_kinds.2.2.1 ⟨1, some ⟨some 7⟩⟩
      ⟨[⟨1, "v1", "/mnt/v1", "/data/v1", false⟩]⟩
      ⟨⟨true, true, true, true⟩, true, true,
       ⟨true, true, true, true, none, none, true, false, true, true⟩⟩
      true "/mnt/new" .CannotUnlockVault ⟨some 7⟩ rfl rfl rfl rfl,
   C8_amended_error_kinds.2.2.2 ⟨1, some ⟨some 7⟩⟩
      ⟨[⟨1, "v1", "/mnt/v1", "/data/v1", false⟩]⟩
      ⟨⟨true, true, true, true⟩, true, true,
       ⟨true, true, true, true, none, none, true, false, true, true⟩⟩
      true "/data/new" .CannotUnlockVault ⟨some 7⟩
      ⟨1, "v1", "/mnt/v1", "/data/new", true⟩ rfl rfl rfl rfl rfl⟩

/-- Claim C9: when the embedded initial `lock` inside a change operation
fails with an error, the whole operation returns that error, the persisted
`data_dir` (resp. `mount_point`) is unchanged, and no field update action
was performed. -/
theorem C9_lock_failure_aborts_change (h : VaultHandler) (db : Store)
    (e : ChangeEnv) (posix : Bool) (value : String) (c : Child)
    (k : VaultHandlerError) (hc : h.child = some c)
    (hlk : (h.lock db e.lockEnv posix).out = .err k) :
    (h.change_data_dir db e posix value).out = .err k ∧
    ((h.change_data_dir db e posix value).db.get h.id).map Vault.data_dir
      = (db.get h.id).map Vault.data_dir ∧
    noDataDirUpdate (h.change_data_dir db e posix value).trace = true ∧
    (h.change_mount_point db e posix value).out = .err k ∧
    ((h.change_mount_point db e posix value).db.get h.id).map Vault.mount_point
      = (db.get h.id).map Vault.mount_point ∧
    noMountPointUpdate (h.change_mount_point db e posix value).trace = true := by
  have hdd : h.change_data_dir db e posix value = h.lock db e.lockEnv posix := by
    unfold VaultHandler.change_data_dir changeDdTail
    rw [hc]
    simp only [hlk]
  have hmp : h.change_mount_point db e posix value
      = h.lock db e.lockEnv posix := by
    unfold VaultHandler.change_mount_point changeMpTail
    rw [hc]
    simp only [hlk]
  rw [hdd, hmp]
  have hfu := lock_no_field_update h db e.lockEnv posix
  refine ⟨hlk, ?_, hfu.1, hlk, ?_, hfu.2⟩
  · rcases lock_db_cases h db e.lockEnv posix with hdb | hdb <;> rw [hdb]
    rw [Store.get_updateField db h.id (fun v => { v with locked := true })
      (fun w => rfl)]
    cases db.get h.id <;> rfl
  · rcases lock_db_cases h db e.lockEnv posix with hdb | hdb <;> rw [hdb]
    rw [Store.get_updateField db h.id (fun v => { v with locked := true })
      (fun w => rfl)]
    cases db.get h.id <;> rfl

/-- Claim C9 witness: concrete failing embedded lock, fields preserved. -/
theorem C9_witness :
    (VaultHandler.change_data_dir ⟨1, some ⟨some 7⟩⟩
        ⟨[⟨1, "v1", "/mnt/v1", "/data/v1", false⟩]⟩
        ⟨⟨false, true, true, true⟩, true, true,
         ⟨true, true, true, true, none, none, true, false, true, true⟩⟩
        true "/data/new").out = .err .CannotLockVault ∧
    ((VaultHandler.change_data_dir ⟨1, some ⟨some 7⟩⟩
        ⟨[⟨1, "v1", "/mnt/v1", "/data/v1", false⟩]⟩
        ⟨⟨false, true, true, true⟩, true, true,
         ⟨true, true, true, true, none, none, true, false, true, true⟩⟩
        true "/data/new").db.get 1).map Vault.data_dir
      = ((⟨[⟨1, "v1", "/mnt/v1", "/data/v1", false⟩]⟩ : Store).get 1).map
          Vault.data_dir ∧
    noDataDirUpdate (VaultHandler.change_data_dir ⟨1, some ⟨some 7⟩⟩
        ⟨[⟨1, "v1", "/mnt/v1", "/data/v1", false⟩]⟩
        ⟨⟨false, true, true, true⟩, true, true,
         ⟨true, true, true, true, none, none, true, false, true, true⟩⟩
        true "/data/new").trace = true ∧
    (VaultHandler.change_mount_point ⟨1, some ⟨some 7⟩⟩
        ⟨[⟨1, "v1", "/mnt/v1", "/data/v1", false⟩]⟩
        ⟨⟨false, true, true, true⟩, true, true,
         ⟨true, true, true, true, none, none, true, false, true, true⟩⟩
        true "/data/new").out = .err .CannotLockVault ∧
    ((VaultHandler.change_mount_point ⟨1, some ⟨some 7⟩⟩
        ⟨[⟨1, "v1", "/mnt/v1", "/data/v1", false⟩]⟩
        ⟨⟨false, true, true, true⟩, true, true,
         ⟨true, true, true, true, none, none, true, false, true, true⟩⟩
        true "/data/new").db.get 1).map Vault.mount_point
      = ((⟨[⟨1, "v1", "/mnt/v1", "/data/v1", false⟩]⟩ : Store).get 1).map
          Vault.mount_point ∧
    noMountPointUpdate (VaultHandler.change_mount_point ⟨1, some ⟨some 7⟩⟩
        ⟨[⟨1, "v1", "/mnt/v1", "/data/v1", false⟩]⟩
        ⟨⟨false, true, true, true⟩, true, true,
         ⟨true, true, true, true, none, none, true, false, true, true⟩⟩
        true "/data/new").trace = true :=
  C9_lock_failure_aborts_change ⟨1, some ⟨some 7⟩⟩
    ⟨[⟨1, "v1", "/mnt/v1", "/data/v1", false⟩]⟩
    ⟨⟨false, true, true, true⟩, true, true,
     ⟨true, true, true, true, none, none, true, false, true, true⟩⟩
    true "/data/new" ⟨some 7⟩ .CannotLockVault rfl rfl

/-- Claim C10: with the `locked=true` write succeeding and a child tracked,
`lock` removes the handle from the slot before attempting termination
(kill is in the trace, the slot is empty afterwards for every termination
or read outcome, and with the umount utility succeeding `lock` returns
rather than panics), so an immediately following `lock` whose write
succeeds returns success with no process action. -/
theorem C10_lock_clears_child (h : VaultHandler) (db : Store)
    (e1 e2 : LockEnv) (posix : Bool) (c : Child) (hc : h.child = some c)
    (hupd1 : e1.updateOk = true) (hum : e1.umountOk = true)
    (hupd2 : e2.updateOk = true) :
    (h.lock db e1 posix).handler.child = none ∧
    Act.killChild c.pid ∈ (h.lock db e1 posix).trace ∧
    ((h.lock db e1 posix).out = .ok ∨
      (h.lock db e1 posix).out = .err .CannotLockVault) ∧
    ((h.lock db e1 posix).handler.lock (h.lock db e1 posix).db e2 posix).out
      = .ok ∧
    ((h.lock db e1 posix).handler.lock (h.lock db e1 posix).db e2 posix).trace
      = [Act.dbUpdateLocked h.id true] ∧
    noProcessAct ((h.lock db e1 posix).handler.lock (h.lock db e1 posix).db
      e2 posix).trace = true := by
  have hw := lock_withChild h db e1 posix c hc hupd1
  have hsecond := lock_noChild ((h.lock db e1 posix).handler)
    ((h.lock db e1 posix).db) e2 posix (by rw [hw.1]) hupd2
  refine ⟨by rw [hw.1], hw.2, lock_returns h db e1 posix hum, ?_, ?_, ?_⟩
  · rw [hsecond]
  · rw [hsecond, hw.1]
  · rw [hsecond] ; rfl

/-- Claim C10 witness: concrete vault, both locks with succeeding writes. -/
theorem C10_witness :
    (VaultHandler.lock ⟨1, some ⟨some 7⟩⟩
        ⟨[⟨1, "v1", "/mnt/v1", "/data/v1", false⟩]⟩ ⟨true, true, true, true⟩
        true).handler.child = none ∧
    Act.killChild (some 7) ∈ (VaultHandler.lock ⟨1, some ⟨some 7⟩⟩
        ⟨[⟨1, "v1", "/mnt/v1", "/data/v1", false⟩]⟩ ⟨true, true, true, true⟩
        true).trace ∧
    ((VaultHandler.lock ⟨1, some ⟨some 7⟩⟩
        ⟨[⟨1, "v1", "/mnt/v1", "/data/v1", false⟩]⟩ ⟨true, true, true, true⟩
        true).out = .ok ∨
      (VaultHandler.lock ⟨1, some ⟨some 7⟩⟩
        ⟨[⟨1, "v1", "/mnt/v1", "/data/v1", false⟩]⟩ ⟨true, true, true, true⟩
        true).out = .err .CannotLockVault) ∧
    ((VaultHandler.lock ⟨1, some ⟨some 7⟩⟩
        ⟨[⟨1, "v1", "/mnt/v1", "/data/v1", false⟩]⟩ ⟨true, true, true, true⟩
        true).handler.lock (VaultHandler.lock ⟨1, some ⟨some 7⟩⟩
        ⟨[⟨1, "v1", "/mnt/v1", "/data/v1", false⟩]⟩ ⟨true, true, true, true⟩
        true).db ⟨true, true, true, true⟩ true).out = .ok ∧
    ((VaultHandler.lock ⟨1, some ⟨some 7⟩⟩
        ⟨[⟨1, "v1", "/mnt/v1", "/data/v1", false⟩]⟩ ⟨true, true, true, true⟩
        true).handler.lock (VaultHandler.lock ⟨1, some ⟨some 7⟩⟩
        ⟨[⟨1, "v1", "/mnt/v1", "/data/v1", false⟩]⟩ ⟨true, true, true, true⟩
        true).db ⟨true, true, true, true⟩ true).trace
      = [Act.dbUpdateLocked 1 true] ∧
    noProcessAct ((VaultHandler.lock ⟨1, some ⟨some 7⟩⟩
        ⟨[⟨1, "v1", "/mnt/v1", "/data/v1", false⟩]⟩ ⟨true, true, true, true⟩
        true).handler.lock (VaultHandler.lock ⟨1, some ⟨some 7⟩⟩
        ⟨[⟨1, "v1", "/mnt/v1", "/data/v1", false⟩]⟩ ⟨true, true, true, true⟩
        true).db ⟨true, true, true, true⟩ true).trace = true :=
  C10_lock_clears_child ⟨1, some ⟨some 7⟩⟩
    ⟨[⟨1, "v1", "/mnt/v1", "/data/v1", false⟩]⟩ ⟨true, true, true, true⟩
    ⟨true, true, true, true⟩ true ⟨some 7⟩ rfl rfl rfl rfl
